import Mathlib

/-!
# Verification of the Veles multi-algorithm mining core

Shallow embedding of the mining coordination code of the Veles repository
(`src/primitives/block.cpp` and `src/rpc/mining.cpp`), together with theorems
settling the specification claims about it.

Headers' 32-bit version words are modelled as natural numbers below `2^32`
(the bit pattern), 256-bit hash values as natural numbers below `2^256`,
and the external hashing primitives (scrypt, NIST5, …), which live outside
the two embedded files, as parameters.
-/

namespace Veles

/-! ## Consensus constants

`versionbits.h` and `primitives/block.h` are not part of the embedded slice,
so the constants they define are modelled from the spec. -/

/-- Modelled from the spec: `VERSIONBITS_TOP_MASK`, the mask of the BIP9
versionbits encoding "occupying the high bits of the block header's version
field" (spec glossary); the standard BIP9 top mask. -/
def VERSIONBITS_TOP_MASK : Nat := 0xE0000000

/-- Modelled from the spec: `VERSIONBITS_TOP_BITS`, the designated
"versionbits" pattern of the BIP9 encoding; the standard BIP9 top bits. -/
def VERSIONBITS_TOP_BITS : Nat := 0x20000000

/-- Modelled from the spec: `ALGO_VERSION_MASK`, the "designated bit range"
of the version field holding the algorithm identifier (spec §3); a
three-bit mid-range field disjoint from the BIP9 top bits, wide enough for
the six identifiers plus unrecognized values. -/
def ALGO_VERSION_MASK : Nat := 0x00070000

/-- Modelled from the spec: the SHA256D algorithm identifier (spec §3: "a
small integer drawn from the closed set", encoded under `ALGO_VERSION_MASK`). -/
def ALGO_SHA256D : Nat := 0x00000000

/-- Modelled from the spec: the SCRYPT algorithm identifier. -/
def ALGO_SCRYPT : Nat := 0x00010000

/-- Modelled from the spec: the NIST5 algorithm identifier. -/
def ALGO_NIST5 : Nat := 0x00020000

/-- Modelled from the spec: the LYRA2Z algorithm identifier. -/
def ALGO_LYRA2Z : Nat := 0x00030000

/-- Modelled from the spec: the X11 algorithm identifier. -/
def ALGO_X11 : Nat := 0x00040000

/-- Modelled from the spec: the X16R algorithm identifier. -/
def ALGO_X16R : Nat := 0x00050000

/-! ## Block header and PoW hash dispatch (`src/primitives/block.cpp`) -/

/-- The fixed fields of `CBlockHeader` (spec §3): version, previous-block
hash, Merkle root, time, compact target, nonce. -/
structure CBlockHeader where
  nVersion : Nat
  hashPrevBlock : Nat
  hashMerkleRoot : Nat
  nTime : Nat
  nBits : Nat
  nNonce : Nat
  deriving DecidableEq, Repr

/-- Little-endian byte serialization of a `w`-byte field. -/
def leBytes (w v : Nat) : List Nat :=
  (List.range w).map fun i => v / 256 ^ i % 256

/-- The serialized bytes of a header from the start of the version field to
the end of the nonce field (the 80-byte buffer `BEGIN(nVersion) .. END(nNonce)`
passed to every hashing primitive in `CBlockHeader::GetPoWHash`). -/
def serializeHeader (h : CBlockHeader) : List Nat :=
  leBytes 4 h.nVersion ++ leBytes 32 h.hashPrevBlock ++ leBytes 32 h.hashMerkleRoot ++
    leBytes 4 h.nTime ++ leBytes 4 h.nBits ++ leBytes 4 h.nNonce

/-- The external hashing primitives used by `CBlockHeader::GetPoWHash`
(`crypto/scrypt.h` etc., outside the embedded slice): each is a pure
function of the 80 header bytes; X16R additionally takes the previous-block
hash as seed (`HashX16R(..., hashPrevBlock)`). `sha256d` stands for
`SerializeHash`, the double-SHA256 used by `CBlockHeader::GetHash`. -/
structure HashPrims where
  sha256d : List Nat → Nat
  scrypt : List Nat → Nat
  nist5 : List Nat → Nat
  lyra2z : List Nat → Nat
  x11 : List Nat → Nat
  x16r : List Nat → Nat → Nat

/-- `CBlockHeader::GetHash`: `SerializeHash(*this)`, double-SHA256 of the
serialized header. -/
def GetHash (P : HashPrims) (h : CBlockHeader) : Nat :=
  P.sha256d (serializeHeader h)

/-- `CBlockHeader::GetPoWHash` (`src/primitives/block.cpp:30-56`):
`powHash` is initialized to the all-ones 256-bit value; headers without the
versionbits top pattern fall back to scrypt; otherwise the switch on
`nVersion & ALGO_VERSION_MASK` dispatches, and the `default:` branch leaves
`powHash` at its initial value. -/
def GetPoWHash (P : HashPrims) (h : CBlockHeader) : Nat :=
  let powHash : Nat := 2 ^ 256 - 1
  if h.nVersion &&& VERSIONBITS_TOP_MASK ≠ VERSIONBITS_TOP_BITS then
    P.scrypt (serializeHeader h)
  else
    let a := h.nVersion &&& ALGO_VERSION_MASK
    if a = ALGO_SHA256D then GetHash P h
    else if a = ALGO_SCRYPT then P.scrypt (serializeHeader h)
    else if a = ALGO_NIST5 then P.nist5 (serializeHeader h)
    else if a = ALGO_LYRA2Z then P.lyra2z (serializeHeader h)
    else if a = ALGO_X11 then P.x11 (serializeHeader h)
    else if a = ALGO_X16R then P.x16r (serializeHeader h) h.hashPrevBlock
    else powHash

/-- `CBlockHeader::GetAlgoCostFactor` (`src/primitives/block.cpp:84-100`).
The C++ declares `CAmount totalAdjustements = 18.25;` where `CAmount` is
`int64_t`, so the initializer truncates to `18`; `totalAdjustements / 6` is
then the integer division `18 / 6 = 3`, and the double result is
`factor / 3`. The switch has no default, so an unrecognized algorithm keeps
`factor = 1`. -/
def GetAlgoCostFactor (nVersion : Nat) : ℚ :=
  let totalAdjustements : Int := 18
  let a := nVersion &&& ALGO_VERSION_MASK
  let factor : ℚ :=
    if a = ALGO_SHA256D then 10
    else if a = ALGO_SCRYPT then 3
    else if a = ALGO_NIST5 then 1
    else if a = ALGO_LYRA2Z then 1 / 2
    else if a = ALGO_X11 then 5 / 4
    else if a = ALGO_X16R then 3 / 2
    else 1
  factor / ((totalAdjustements / 6 : Int) : ℚ)

/-! ## Block index model (`CBlockIndex`, consumed by `src/rpc/mining.cpp`)

`chain.h` is outside the embedded slice; the entry carries the fields the
embedded code reads: version, block time, compact target, global cumulative
chain work and per-algorithm cumulative chain work (`nChainWorkAlgo`). The
height is derived as the number of ancestors, which is the block-index
invariant the stored `nHeight` field maintains. A null `pprev` pointer is
the `genesis` constructor. -/

/-- The per-entry fields of a block index entry read by the mining RPCs. -/
structure BlockData where
  nVersion : Nat
  nTime : Int
  nBits : Nat
  nChainWork : Nat
  nChainWorkAlgo : Nat
  deriving DecidableEq, Repr

/-- A block index entry: its data plus the backward `pprev` chain;
`genesis` models an entry whose `pprev` is null. -/
inductive CBlockIndex where
  | genesis (d : BlockData)
  | node (d : BlockData) (prev : CBlockIndex)
  deriving DecidableEq, Repr

namespace CBlockIndex

/-- The entry's own data fields. -/
def data : CBlockIndex → BlockData
  | genesis d => d
  | node d _ => d

/-- The `pprev` pointer (`none` models null). -/
def pprev : CBlockIndex → Option CBlockIndex
  | genesis _ => none
  | node _ p => some p

/-- `nHeight`: number of ancestors (0 for genesis). -/
def nHeight : CBlockIndex → Nat
  | genesis _ => 0
  | node _ p => nHeight p + 1

end CBlockIndex

/-- `CChain::Height()`: the tip's height, or -1 when the chain is empty. -/
def chainHeight : Option CBlockIndex → Int
  | none => -1
  | some t => t.nHeight

/-- `chainActive[h]`: the entry of the chain from `b` at height `h`, when
`h` is at most the height of `b`. -/
def ancestorAt (b : CBlockIndex) (h : Nat) : Option CBlockIndex :=
  if b.nHeight = h then some b
  else match b with
    | .genesis _ => none
    | .node _ p => ancestorAt p h

/-- The backscan loop shared by `GetLastAlgoBlock`
(`src/rpc/mining.cpp:120-129`) and the per-endpoint scans of
`GetNetworkHashPS` (`src/rpc/mining.cpp:81-84`): walk `pprev` while the
entry's algorithm field differs from `nAlgo` and `pprev` is non-null. -/
def lastAlgoBlockFrom : CBlockIndex → Nat → CBlockIndex
  | .genesis d, _ => .genesis d
  | .node d p, nAlgo =>
    if d.nVersion &&& ALGO_VERSION_MASK = nAlgo then .node d p
    else lastAlgoBlockFrom p nAlgo

/-- `GetLastAlgoBlock` (`src/rpc/mining.cpp:120-129`): backscan from the
active chain's tip, which the code dereferences unconditionally. -/
def GetLastAlgoBlock (tip : CBlockIndex) (nAlgo : Nat) : CBlockIndex :=
  lastAlgoBlockFrom tip nAlgo

/-- Spec-side definition for comparison (spec §4.4): the most recent
ancestor of `b` that was mined by `nAlgo`, `none` when no block of the
chain was. -/
def mostRecentAlgoAncestor : CBlockIndex → Nat → Option CBlockIndex
  | .genesis d, nAlgo =>
    if d.nVersion &&& ALGO_VERSION_MASK = nAlgo then some (.genesis d) else none
  | .node d p, nAlgo =>
    if d.nVersion &&& ALGO_VERSION_MASK = nAlgo then some (.node d p)
    else mostRecentAlgoAncestor p nAlgo

/-- The genesis entry at the end of the backward chain from `b`. -/
def genesisOf : CBlockIndex → CBlockIndex
  | .genesis d => .genesis d
  | .node _ p => genesisOf p

/-- All entries of the chain from `b` back to genesis. -/
def chainEntries : CBlockIndex → List CBlockIndex
  | .genesis d => [.genesis d]
  | .node d p => .node d p :: chainEntries p

/-! ## `GetNetworkHashPS` (`src/rpc/mining.cpp:48-90`) -/

/-- `arith_uint256` subtraction: wraps modulo `2^256`. -/
def sub256 (a b : Nat) : Nat :=
  (2 ^ 256 + a - b) % 2 ^ 256

/-- The window-walk loop of `GetNetworkHashPS` (`src/rpc/mining.cpp:65-73`):
step to `pprev` `k` times, folding min/max of the visited block times;
`none` models the null-pointer dereference that the height clamp makes
unreachable. -/
def walkMinMax : CBlockIndex → Nat → Int → Int → Option (CBlockIndex × Int × Int)
  | b, 0, mn, mx => some (b, mn, mx)
  | .genesis _, _ + 1, _, _ => none
  | .node _ p, k + 1, mn, mx => walkMinMax p k (min p.data.nTime mn) (max p.data.nTime mx)

/-- Starting-entry resolution of `GetNetworkHashPS`
(`src/rpc/mining.cpp:49-52`): `chainActive[height]` when
`0 ≤ height < chainActive.Height()`, else the tip. -/
def resolvedStart (tip : Option CBlockIndex) (height : Int) : Option CBlockIndex :=
  if 0 ≤ height ∧ height < chainHeight tip then
    tip.bind fun t => ancestorAt t height.toNat
  else tip

/-- Window-size resolution of `GetNetworkHashPS`
(`src/rpc/mining.cpp:57-63`): nonpositive `lookup` becomes
`height % interval + 1`, then the result is clamped to the height. -/
def lookupWindow (lookup : Int) (h interval : Nat) : Nat :=
  let l1 : Int := if lookup ≤ 0 then ((h % interval : Nat) : Int) + 1 else lookup
  if (h : Int) < l1 then h else l1.toNat

/-- `GetNetworkHashPS` (`src/rpc/mining.cpp:48-90`). `interval` is the
external `DifficultyAdjustmentInterval()`. The global-work difference the
code first stores into `workDiff` is immediately overwritten by the
per-algorithm difference (FXTC block, lines 80-86), so only the final value
appears. The numeric result is modelled in `ℚ`. -/
def GetNetworkHashPS (interval : Nat) (tip : Option CBlockIndex)
    (lookup height : Int) (nAlgo : Nat) : ℚ :=
  match resolvedStart tip height with
  | none => 0
  | some pb =>
    if pb.nHeight = 0 then 0
    else
      match walkMinMax pb (lookupWindow lookup pb.nHeight interval) pb.data.nTime pb.data.nTime with
      | none => 0
      | some (pb0, minTime, maxTime) =>
        if minTime = maxTime then 0
        else
          (sub256 (lastAlgoBlockFrom pb nAlgo).data.nChainWorkAlgo
              (lastAlgoBlockFrom pb0 nAlgo).data.nChainWorkAlgo : ℚ) /
            ((maxTime - minTime : Int) : ℚ)

/-- `GetAlgoDifficulty` (`src/rpc/mining.cpp:145-147`): the difficulty of
the last block mined by `nAlgo`; the external `GetDifficulty`
(`rpc/blockchain.cpp`) is a parameter. -/
def GetAlgoDifficulty (GetDifficulty : CBlockIndex → ℚ) (tip : CBlockIndex) (nAlgo : Nat) : ℚ :=
  GetDifficulty (GetLastAlgoBlock tip nAlgo)

/-- One row of the `getmultialgoinfo` result array
(`src/rpc/mining.cpp:489-495`). -/
structure MultiAlgoInfoRow where
  difficulty : ℚ
  hashrate : ℚ
  last_block_index : Nat
  deriving DecidableEq, Repr

/-- The `getmultialgoinfo` loop body for one algorithm
(`src/rpc/mining.cpp:489-495`). -/
def getmultialgoinfoRow (GetDifficulty : CBlockIndex → ℚ) (interval : Nat)
    (tip : CBlockIndex) (nAlgo : Nat) : MultiAlgoInfoRow :=
  { difficulty := GetAlgoDifficulty GetDifficulty tip nAlgo
  , hashrate := GetNetworkHashPS interval (some tip) 120 (-1) nAlgo
  , last_block_index := (GetLastAlgoBlock tip nAlgo).nHeight }

/-! ## Theorems: PoW hash dispatch (claims C2, C5) -/

/-- Concrete hashing primitives used by witnesses, chosen with pairwise
distinct outputs away from the all-ones sentinel. -/
def samplePrims : HashPrims :=
  { sha256d := fun bs => bs.sum
  , scrypt := fun bs => bs.sum + 1
  , nist5 := fun bs => bs.sum + 2
  , lyra2z := fun bs => bs.sum + 3
  , x11 := fun bs => bs.sum + 4
  , x16r := fun bs seed => bs.sum + seed + 5 }

/-- C2: a header whose version does not carry the versionbits top pattern
is hashed with SCRYPT over its 80 serialized bytes, whatever its algorithm
bits. -/
theorem GetPoWHash_preVersionbits_scrypt (P : HashPrims) (h : CBlockHeader)
    (hv : h.nVersion &&& VERSIONBITS_TOP_MASK ≠ VERSIONBITS_TOP_BITS) :
    GetPoWHash P h = P.scrypt (serializeHeader h) := by
  unfold GetPoWHash
  simp [hv]

/-- Witness for C2: the pre-versionbits header `version = 0x00050002`
(algorithm bits set to X16R) falls back to SCRYPT. -/
theorem GetPoWHash_preVersionbits_scrypt_witness :
    ((⟨0x00050002, 7, 8, 9, 10, 11⟩ : CBlockHeader).nVersion &&& VERSIONBITS_TOP_MASK
        ≠ VERSIONBITS_TOP_BITS) ∧
      GetPoWHash samplePrims ⟨0x00050002, 7, 8, 9, 10, 11⟩
        = samplePrims.scrypt (serializeHeader ⟨0x00050002, 7, 8, 9, 10, 11⟩) :=
  ⟨by decide, GetPoWHash_preVersionbits_scrypt samplePrims _ (by decide)⟩

/-- Counterexample to C5 as stated: on a versionbits header whose algorithm
field is none of the six identifiers, the computation does not fail — it
returns the all-ones initial value of `powHash`. -/
theorem GetPoWHash_unknownAlgo_counterexample :
    let h : CBlockHeader := ⟨0x20060000, 7, 8, 9, 10, 11⟩
    (h.nVersion &&& VERSIONBITS_TOP_MASK = VERSIONBITS_TOP_BITS) ∧
      (h.nVersion &&& ALGO_VERSION_MASK ≠ ALGO_SHA256D) ∧
      (h.nVersion &&& ALGO_VERSION_MASK ≠ ALGO_SCRYPT) ∧
      (h.nVersion &&& ALGO_VERSION_MASK ≠ ALGO_NIST5) ∧
      (h.nVersion &&& ALGO_VERSION_MASK ≠ ALGO_LYRA2Z) ∧
      (h.nVersion &&& ALGO_VERSION_MASK ≠ ALGO_X11) ∧
      (h.nVersion &&& ALGO_VERSION_MASK ≠ ALGO_X16R) ∧
      GetPoWHash samplePrims h = 2 ^ 256 - 1 := by
  refine ⟨by decide, by decide, by decide, by decide, by decide, by decide, by decide, ?_⟩
  decide

/-- C5 amended: on a versionbits header with an unrecognized algorithm
field, `GetPoWHash` returns the all-ones 256-bit sentinel the local
`powHash` was initialized to; no error is raised. -/
theorem GetPoWHash_unknownAlgo_allOnes (P : HashPrims) (h : CBlockHeader)
    (hv : h.nVersion &&& VERSIONBITS_TOP_MASK = VERSIONBITS_TOP_BITS)
    (h1 : h.nVersion &&& ALGO_VERSION_MASK ≠ ALGO_SHA256D)
    (h2 : h.nVersion &&& ALGO_VERSION_MASK ≠ ALGO_SCRYPT)
    (h3 : h.nVersion &&& ALGO_VERSION_MASK ≠ ALGO_NIST5)
    (h4 : h.nVersion &&& ALGO_VERSION_MASK ≠ ALGO_LYRA2Z)
    (h5 : h.nVersion &&& ALGO_VERSION_MASK ≠ ALGO_X11)
    (h6 : h.nVersion &&& ALGO_VERSION_MASK ≠ ALGO_X16R) :
    GetPoWHash P h = 2 ^ 256 - 1 := by
  unfold GetPoWHash
  simp [hv, h1, h2, h3, h4, h5, h6]

/-- Witness for the amended C5 at the header of the counterexample. -/
theorem GetPoWHash_unknownAlgo_allOnes_witness :
    ((⟨0x20060000, 7, 8, 9, 10, 11⟩ : CBlockHeader).nVersion &&& VERSIONBITS_TOP_MASK
        = VERSIONBITS_TOP_BITS) ∧
      GetPoWHash samplePrims ⟨0x20060000, 7, 8, 9, 10, 11⟩ = 2 ^ 256 - 1 :=
  ⟨by decide,
    GetPoWHash_unknownAlgo_allOnes samplePrims _ (by decide) (by decide) (by decide)
      (by decide) (by decide) (by decide) (by decide)⟩

/-! ## Theorems: cost factor (claim C4) -/

/-- Evaluation of the SHA256D cost factor. -/
theorem costFactor_SHA256D : GetAlgoCostFactor ALGO_SHA256D = 10 / 3 := by
  norm_num [GetAlgoCostFactor,
    show ALGO_SHA256D &&& ALGO_VERSION_MASK = ALGO_SHA256D from by decide]

/-- Evaluation of the SCRYPT cost factor. -/
theorem costFactor_SCRYPT : GetAlgoCostFactor ALGO_SCRYPT = 1 := by
  norm_num [GetAlgoCostFactor,
    show ALGO_SCRYPT &&& ALGO_VERSION_MASK = ALGO_SCRYPT from by decide,
    show ALGO_SCRYPT ≠ ALGO_SHA256D from by decide]

/-- Evaluation of the NIST5 cost factor. -/
theorem costFactor_NIST5 : GetAlgoCostFactor ALGO_NIST5 = 1 / 3 := by
  norm_num [GetAlgoCostFactor,
    show ALGO_NIST5 &&& ALGO_VERSION_MASK = ALGO_NIST5 from by decide,
    show ALGO_NIST5 ≠ ALGO_SHA256D from by decide,
    show ALGO_NIST5 ≠ ALGO_SCRYPT from by decide]

/-- Evaluation of the LYRA2Z cost factor. -/
theorem costFactor_LYRA2Z : GetAlgoCostFactor ALGO_LYRA2Z = 1 / 6 := by
  norm_num [GetAlgoCostFactor,
    show ALGO_LYRA2Z &&& ALGO_VERSION_MASK = ALGO_LYRA2Z from by decide,
    show ALGO_LYRA2Z ≠ ALGO_SHA256D from by decide,
    show ALGO_LYRA2Z ≠ ALGO_SCRYPT from by decide,
    show ALGO_LYRA2Z ≠ ALGO_NIST5 from by decide]

/-- Evaluation of the X11 cost factor. -/
theorem costFactor_X11 : GetAlgoCostFactor ALGO_X11 = 5 / 12 := by
  norm_num [GetAlgoCostFactor,
    show ALGO_X11 &&& ALGO_VERSION_MASK = ALGO_X11 from by decide,
    show ALGO_X11 ≠ ALGO_SHA256D from by decide,
    show ALGO_X11 ≠ ALGO_SCRYPT from by decide,
    show ALGO_X11 ≠ ALGO_NIST5 from by decide,
    show ALGO_X11 ≠ ALGO_LYRA2Z from by decide]

/-- Evaluation of the X16R cost factor. -/
theorem costFactor_X16R : GetAlgoCostFactor ALGO_X16R = 1 / 2 := by
  norm_num [GetAlgoCostFactor,
    show ALGO_X16R &&& ALGO_VERSION_MASK = ALGO_X16R from by decide,
    show ALGO_X16R ≠ ALGO_SHA256D from by decide,
    show ALGO_X16R ≠ ALGO_SCRYPT from by decide,
    show ALGO_X16R ≠ ALGO_NIST5 from by decide,
    show ALGO_X16R ≠ ALGO_LYRA2Z from by decide,
    show ALGO_X16R ≠ ALGO_X11 from by decide]

/-- Counterexample to C4 as stated: the SHA256D cost factor is not the
table value divided by `18.25 / 6`, and the mean of the six factors is
not 1. -/
theorem GetAlgoCostFactor_claim_counterexample :
    GetAlgoCostFactor ALGO_SHA256D ≠ 10 / ((18.25 : ℚ) / 6) ∧
      (GetAlgoCostFactor ALGO_SHA256D + GetAlgoCostFactor ALGO_SCRYPT +
          GetAlgoCostFactor ALGO_NIST5 + GetAlgoCostFactor ALGO_LYRA2Z +
          GetAlgoCostFactor ALGO_X11 + GetAlgoCostFactor ALGO_X16R) / 6 ≠ 1 := by
  rw [costFactor_SHA256D, costFactor_SCRYPT, costFactor_NIST5, costFactor_LYRA2Z,
    costFactor_X11, costFactor_X16R]
  norm_num

/-- C4 amended: the factor table is divided by 3 — the constant `18.25` is
truncated to the integer 18 by its `CAmount` type and `18 / 6 = 3` in
integer arithmetic — so the six returned factors are
`10/3, 1, 1/3, 1/6, 5/12, 1/2` and their mean is `23/24`, not 1. -/
theorem GetAlgoCostFactor_values :
    GetAlgoCostFactor ALGO_SHA256D = 10 / 3 ∧
      GetAlgoCostFactor ALGO_SCRYPT = 1 ∧
      GetAlgoCostFactor ALGO_NIST5 = 1 / 3 ∧
      GetAlgoCostFactor ALGO_LYRA2Z = 1 / 6 ∧
      GetAlgoCostFactor ALGO_X11 = 5 / 12 ∧
      GetAlgoCostFactor ALGO_X16R = 1 / 2 ∧
      (GetAlgoCostFactor ALGO_SHA256D + GetAlgoCostFactor ALGO_SCRYPT +
          GetAlgoCostFactor ALGO_NIST5 + GetAlgoCostFactor ALGO_LYRA2Z +
          GetAlgoCostFactor ALGO_X11 + GetAlgoCostFactor ALGO_X16R) / 6 = 23 / 24 := by
  rw [costFactor_SHA256D, costFactor_SCRYPT, costFactor_NIST5, costFactor_LYRA2Z,
    costFactor_X11, costFactor_X16R]
  norm_num

/-! ## Theorems: hash-rate estimator (claims C3, C9) and last-algo block (C10) -/

/-- The code's backscan loop lands exactly on the spec-side "most recent
ancestor mined by the algorithm" whenever one exists. -/
theorem lastAlgoBlockFrom_eq_mostRecent (b : CBlockIndex) (n : Nat) (a : CBlockIndex)
    (h : mostRecentAlgoAncestor b n = some a) : lastAlgoBlockFrom b n = a := by
  induction b with
  | genesis d =>
    rw [mostRecentAlgoAncestor] at h
    rw [lastAlgoBlockFrom]
    by_cases hc : d.nVersion &&& ALGO_VERSION_MASK = n
    · rw [if_pos hc] at h
      exact Option.some_injective _ h
    · rw [if_neg hc] at h
      exact absurd h (Option.noConfusion)
  | node d p ih =>
    rw [mostRecentAlgoAncestor] at h
    rw [lastAlgoBlockFrom]
    by_cases hc : d.nVersion &&& ALGO_VERSION_MASK = n
    · rw [if_pos hc] at h
      rw [if_pos hc]
      exact Option.some_injective _ h
    · rw [if_neg hc] at h
      rw [if_neg hc]
      exact ih h

/-- `arith_uint256` subtraction is the plain difference when the operands
are ordered and within range. -/
theorem sub256_of_le (a b : Nat) (hba : b ≤ a) (ha : a < 2 ^ 256) :
    sub256 a b = a - b := by
  unfold sub256
  have h1 : 2 ^ 256 + a - b = (a - b) + 1 * 2 ^ 256 := by omega
  rw [h1, Nat.add_mul_mod_self_right, Nat.mod_eq_of_lt (by omega)]

/-- C3: when the starting entry resolves to a positive height, the window
has distinct extremal times, and each endpoint has a most recent ancestor
mined by the requested algorithm, the estimator returns the difference of
those ancestors' per-algorithm chain works (`nChainWorkAlgo`) divided by
the time span — not the difference of the endpoints' global chain works. -/
theorem GetNetworkHashPS_perAlgoWork (interval : Nat) (tip : Option CBlockIndex)
    (lookup height : Int) (nAlgo : Nat) (pb pb0 a1 a2 : CBlockIndex) (mn mx : Int)
    (hpb : resolvedStart tip height = some pb)
    (hh : pb.nHeight ≠ 0)
    (hw : walkMinMax pb (lookupWindow lookup pb.nHeight interval) pb.data.nTime pb.data.nTime
      = some (pb0, mn, mx))
    (hne : mn ≠ mx)
    (ha1 : mostRecentAlgoAncestor pb nAlgo = some a1)
    (ha2 : mostRecentAlgoAncestor pb0 nAlgo = some a2)
    (hle : a2.data.nChainWorkAlgo ≤ a1.data.nChainWorkAlgo)
    (hlt : a1.data.nChainWorkAlgo < 2 ^ 256) :
    GetNetworkHashPS interval tip lookup height nAlgo =
      ((a1.data.nChainWorkAlgo : ℚ) - (a2.data.nChainWorkAlgo : ℚ)) / ((mx - mn : Int) : ℚ) := by
  unfold GetNetworkHashPS
  simp only [hpb]
  rw [if_neg hh]
  simp only [hw]
  rw [if_neg hne,
    lastAlgoBlockFrom_eq_mostRecent pb nAlgo a1 ha1,
    lastAlgoBlockFrom_eq_mostRecent pb0 nAlgo a2 ha2,
    sub256_of_le _ _ hle hlt,
    Nat.cast_sub hle]

/-- C9: the estimator returns 0 when the starting entry resolves to null,
when it resolves to height 0, and when the extremal block times over the
scanned window coincide — the guards that precede the division by
`maxTime - minTime`. -/
theorem GetNetworkHashPS_zeroGuards (interval : Nat) (tip : Option CBlockIndex)
    (lookup height : Int) (nAlgo : Nat) :
    (resolvedStart tip height = none →
        GetNetworkHashPS interval tip lookup height nAlgo = 0) ∧
      (∀ pb, resolvedStart tip height = some pb → pb.nHeight = 0 →
        GetNetworkHashPS interval tip lookup height nAlgo = 0) ∧
      (∀ pb pb0 t, resolvedStart tip height = some pb → pb.nHeight ≠ 0 →
        walkMinMax pb (lookupWindow lookup pb.nHeight interval) pb.data.nTime pb.data.nTime
          = some (pb0, t, t) →
        GetNetworkHashPS interval tip lookup height nAlgo = 0) := by
  refine ⟨?_, ?_, ?_⟩
  · intro h
    simp [GetNetworkHashPS, h]
  · intro pb h h0
    simp [GetNetworkHashPS, h, h0]
  · intro pb pb0 t h h0 hw
    unfold GetNetworkHashPS
    simp only [h]
    rw [if_neg h0]
    simp only [hw]
    simp

/-- Sample genesis entry: SCRYPT algorithm bits, time 0. -/
def sampleGenesis : CBlockIndex := .genesis ⟨0x20010000, 0, 0x1d00ffff, 1, 1⟩

/-- Sample height-1 entry over `sampleGenesis`, time 100. -/
def sampleB1 : CBlockIndex := .node ⟨0x20010000, 100, 0x1d00ffff, 2, 2⟩ sampleGenesis

/-- Sample height-2 tip over `sampleB1`, time 200. -/
def sampleB2 : CBlockIndex := .node ⟨0x20010000, 200, 0x1d00ffff, 4, 4⟩ sampleB1

/-- Sample height-1 entry whose time equals the genesis time. -/
def sampleFlat1 : CBlockIndex := .node ⟨0x20010000, 0, 0x1d00ffff, 2, 2⟩ sampleGenesis

/-- Witness for C3: on the three-block SCRYPT chain, the estimator over
the 2-block window returns `(4 - 1) / (200 - 0)`. -/
theorem GetNetworkHashPS_perAlgoWork_witness :
    GetNetworkHashPS 10 (some sampleB2) 2 (-1) ALGO_SCRYPT = 3 / 200 := by
  have h := GetNetworkHashPS_perAlgoWork 10 (some sampleB2) 2 (-1) ALGO_SCRYPT
    sampleB2 sampleGenesis sampleB2 sampleGenesis 0 200
    (by rfl) (by decide) (by rfl) (by decide) (by decide) (by decide)
    (by decide) (by decide)
  rw [h]
  norm_num [sampleB2, sampleGenesis, CBlockIndex.data]

/-- Witness for C9: null resolution, genesis resolution and a flat-time
window each make the estimator return 0. -/
theorem GetNetworkHashPS_zeroGuards_witness :
    GetNetworkHashPS 10 none 120 (-1) ALGO_SCRYPT = 0 ∧
      GetNetworkHashPS 10 (some sampleGenesis) 120 (-1) ALGO_SCRYPT = 0 ∧
      GetNetworkHashPS 10 (some sampleFlat1) 120 (-1) ALGO_SCRYPT = 0 :=
  ⟨(GetNetworkHashPS_zeroGuards 10 none 120 (-1) ALGO_SCRYPT).1 (by rfl),
    (GetNetworkHashPS_zeroGuards 10 (some sampleGenesis) 120 (-1) ALGO_SCRYPT).2.1
      sampleGenesis (by rfl) (by decide),
    (GetNetworkHashPS_zeroGuards 10 (some sampleFlat1) 120 (-1) ALGO_SCRYPT).2.2
      sampleFlat1 sampleGenesis 0 (by rfl) (by decide) (by rfl)⟩

/-- The entry at the end of the backward walk is the genesis entry. -/
theorem lastAlgoBlockFrom_of_no_algo (b : CBlockIndex) (nAlgo : Nat)
    (h : ∀ e ∈ chainEntries b, e.data.nVersion &&& ALGO_VERSION_MASK ≠ nAlgo) :
    lastAlgoBlockFrom b nAlgo = genesisOf b := by
  induction b with
  | genesis d =>
    rw [lastAlgoBlockFrom, genesisOf]
  | node d p ih =>
    rw [lastAlgoBlockFrom, genesisOf]
    have hd : d.nVersion &&& ALGO_VERSION_MASK ≠ nAlgo :=
      h (CBlockIndex.node d p) (by rw [chainEntries]; exact List.mem_cons_self _ _)
    rw [if_neg hd]
    exact ih fun e he => h e (by rw [chainEntries]; exact List.mem_cons_of_mem _ he)

/-- The genesis entry has height 0. -/
theorem genesisOf_nHeight (b : CBlockIndex) : (genesisOf b).nHeight = 0 := by
  induction b with
  | genesis d => rw [genesisOf, CBlockIndex.nHeight]
  | node d p ih => rw [genesisOf]; exact ih

/-- C10: when no block of the active chain was mined by the queried
algorithm, `GetLastAlgoBlock` stops at the genesis entry (height 0) rather
than returning null, so the `getmultialgoinfo` row reports
`last_block_index = 0` and the genesis block's difficulty. -/
theorem GetLastAlgoBlock_noAlgo_genesis (GetDifficulty : CBlockIndex → ℚ) (interval : Nat)
    (tip : CBlockIndex) (nAlgo : Nat)
    (h : ∀ e ∈ chainEntries tip, e.data.nVersion &&& ALGO_VERSION_MASK ≠ nAlgo) :
    GetLastAlgoBlock tip nAlgo = genesisOf tip ∧
      (GetLastAlgoBlock tip nAlgo).nHeight = 0 ∧
      (getmultialgoinfoRow GetDifficulty interval tip nAlgo).last_block_index = 0 ∧
      (getmultialgoinfoRow GetDifficulty interval tip nAlgo).difficulty
        = GetDifficulty (genesisOf tip) := by
  have hb : lastAlgoBlockFrom tip nAlgo = genesisOf tip := lastAlgoBlockFrom_of_no_algo tip nAlgo h
  refine ⟨hb, ?_, ?_, ?_⟩
  · rw [GetLastAlgoBlock, hb, genesisOf_nHeight]
  · show (GetLastAlgoBlock tip nAlgo).nHeight = 0
    rw [GetLastAlgoBlock, hb, genesisOf_nHeight]
  · show GetAlgoDifficulty GetDifficulty tip nAlgo = GetDifficulty (genesisOf tip)
    rw [GetAlgoDifficulty, GetLastAlgoBlock, hb]

/-- Witness for C10: on the SCRYPT-only two-block chain, the X11 query
lands on the genesis entry and the row reports height 0 and the genesis
difficulty. -/
theorem GetLastAlgoBlock_noAlgo_genesis_witness :
    GetLastAlgoBlock sampleB1 ALGO_X11 = genesisOf sampleB1 ∧
      (GetLastAlgoBlock sampleB1 ALGO_X11).nHeight = 0 ∧
      (getmultialgoinfoRow (fun e => (e.data.nBits : ℚ)) 10 sampleB1 ALGO_X11).last_block_index
          = 0 ∧
      (getmultialgoinfoRow (fun e => (e.data.nBits : ℚ)) 10 sampleB1 ALGO_X11).difficulty
        = (fun e : CBlockIndex => (e.data.nBits : ℚ)) (genesisOf sampleB1) :=
  GetLastAlgoBlock_noAlgo_genesis (fun e => (e.data.nBits : ℚ)) 10 sampleB1 ALGO_X11
    (by decide)

/-! ## Template cache of `getblocktemplate` (`src/rpc/mining.cpp:908-935`, claim C1) -/

/-- The static cache state of `getblocktemplate`: `pindexPrev` (pointer
identity of the tip the cached template builds on, `none` models the null
initial pointer), `nStart` (creation time), `nTemplatePowAlgo`, and
`nTransactionsUpdatedLast` (mempool counter at creation). Tip pointers are
modelled as natural-number identities. -/
structure TemplateCacheState where
  pindexPrev : Option Nat
  nStart : Int
  nTemplatePowAlgo : Nat
  nTransactionsUpdatedLast : Nat
  deriving DecidableEq, Repr

/-- The staleness condition of `src/rpc/mining.cpp:913-915`: rebuild iff
the tip changed, or the mempool counter changed and more than 5 seconds
elapsed, or the requested algorithm differs from the cached one. -/
abbrev templateStale (st : TemplateCacheState) (curTip mempoolUpdated : Nat)
    (now : Int) (nPowAlgo : Nat) : Prop :=
  st.pindexPrev ≠ some curTip ∨
    (mempoolUpdated ≠ st.nTransactionsUpdatedLast ∧ now - st.nStart > 5) ∨
    nPowAlgo ≠ st.nTemplatePowAlgo

/-- The cache update of `getblocktemplate` (`src/rpc/mining.cpp:908-935`)
on the success path (on rebuild failure the RPC throws and returns no
template): when the cached template is stale the external `BlockAssembler`
is invoked (second component `true`) and the state records the current
tip, time, algorithm and mempool counter; otherwise the cached template is
reused (second component `false`). -/
def gbtTemplateUpdate (st : TemplateCacheState) (curTip mempoolUpdated : Nat)
    (now : Int) (nPowAlgo : Nat) : TemplateCacheState × Bool :=
  if templateStale st curTip mempoolUpdated now nPowAlgo then
    ({ pindexPrev := some curTip, nStart := now, nTemplatePowAlgo := nPowAlgo,
       nTransactionsUpdatedLast := mempoolUpdated }, true)
  else (st, false)

/-- The claim's validity condition, stated as written: tip unchanged,
algorithm equal, and counter unchanged or fewer than 5 seconds elapsed. -/
def claimCacheValid (st : TemplateCacheState) (curTip mempoolUpdated : Nat)
    (now : Int) (nPowAlgo : Nat) : Prop :=
  st.pindexPrev = some curTip ∧ nPowAlgo = st.nTemplatePowAlgo ∧
    (mempoolUpdated = st.nTransactionsUpdatedLast ∨ now - st.nStart < 5)

/-- Counterexample to C1 as stated: with the mempool counter changed and
exactly 5 seconds elapsed (tip and algorithm unchanged), the code reuses
the cached template although the claim's "fewer than 5 seconds" condition
fails. -/
theorem getblocktemplate_cache_claim_counterexample :
    (gbtTemplateUpdate ⟨some 1, 0, ALGO_SCRYPT, 0⟩ 1 1 5 ALGO_SCRYPT).2 = false ∧
      ¬ claimCacheValid ⟨some 1, 0, ALGO_SCRYPT, 0⟩ 1 1 5 ALGO_SCRYPT := by
  unfold gbtTemplateUpdate templateStale claimCacheValid
  norm_num

/-- C1 amended: the cached template is reused (no `BlockAssembler` call)
iff the tip is unchanged, the requested algorithm equals the cached one,
and the mempool counter is unchanged or **at most** 5 seconds have elapsed
(the code rebuilds on a mempool change only when strictly more than 5
seconds have elapsed); and the returned template always builds on the
current tip. -/
theorem getblocktemplate_cache_reuse_iff (st : TemplateCacheState)
    (curTip mempoolUpdated : Nat) (now : Int) (nPowAlgo : Nat) :
    ((gbtTemplateUpdate st curTip mempoolUpdated now nPowAlgo).2 = false ↔
        (st.pindexPrev = some curTip ∧ nPowAlgo = st.nTemplatePowAlgo ∧
          (mempoolUpdated = st.nTransactionsUpdatedLast ∨ now - st.nStart ≤ 5))) ∧
      (gbtTemplateUpdate st curTip mempoolUpdated now nPowAlgo).1.pindexPrev = some curTip := by
  constructor
  · unfold gbtTemplateUpdate
    by_cases h : templateStale st curTip mempoolUpdated now nPowAlgo
    · rw [if_pos h]
      simp only [Bool.true_eq_false, false_iff]
      intro hc
      rcases h with h1 | ⟨h2, h3⟩ | h4
      · exact h1 hc.1
      · rcases hc.2.2 with h5 | h5
        · exact h2 h5
        · omega
      · exact h4 hc.2.1
    · rw [if_neg h]
      simp only [true_iff]
      unfold templateStale at h
      push_neg at h
      refine ⟨h.1, h.2.2, ?_⟩
      by_cases hm : mempoolUpdated = st.nTransactionsUpdatedLast
      · exact Or.inl hm
      · exact Or.inr (by have := h.2.1 (fun he => hm he); omega)
  · unfold gbtTemplateUpdate
    by_cases h : templateStale st curTip mempoolUpdated now nPowAlgo
    · rw [if_pos h]
    · rw [if_neg h]
      unfold templateStale at h
      push_neg at h
      exact h.1

/-! ## Submission pipeline (`src/rpc/mining.cpp:604-621, 1148-1252`, claim C6) -/

/-- The three modes of a `CValidationState` after processing: valid,
invalid with a consensus reject reason, or a system error. -/
inductive CValidationState where
  | valid
  | invalid (reason : String)
  | sysError (msg : String)
  deriving DecidableEq, Repr

/-- JSON values returned by the submit paths. -/
inductive UniValue where
  | nullValue
  | str (s : String)
  deriving DecidableEq, Repr

/-- The RPC error codes thrown by the embedded submit paths. -/
inductive RPCErrorCode where
  | VERIFY_ERROR
  | DESERIALIZATION_ERROR
  deriving DecidableEq, Repr

/-- A thrown `JSONRPCError`: code and message. -/
structure JSONRPCError where
  code : RPCErrorCode
  message : String
  deriving DecidableEq, Repr

/-- `BIP22ValidationResult` (`src/rpc/mining.cpp:604-621`): null for a
valid state, a thrown `RPC_VERIFY_ERROR` for a system error, and the
reject reason (or `"rejected"` when empty) as a JSON string for an invalid
state. `fsm` is the external `FormatStateMessage`. -/
def BIP22ValidationResult (fsm : CValidationState → String) :
    CValidationState → Except JSONRPCError UniValue
  | .valid => .ok .nullValue
  | .sysError m => .error ⟨.VERIFY_ERROR, fsm (.sysError m)⟩
  | .invalid reason =>
    if reason = "" then .ok (.str "rejected") else .ok (.str reason)

/-- The result handling of `submitblock` after `ProcessNewBlock`
(`src/rpc/mining.cpp:1200-1211`): `"duplicate"` when the block was known
and accepted, `"inconclusive"` when the state catcher saw nothing, else
`BIP22ValidationResult` of the caught state. -/
def submitblockResultOf (fsm : CValidationState → String)
    (accepted new_block found : Bool) (state : CValidationState) :
    Except JSONRPCError UniValue :=
  if !new_block && accepted then .ok (.str "duplicate")
  else if !found then .ok (.str "inconclusive")
  else BIP22ValidationResult fsm state

/-- The result handling of `submitheader`
(`src/rpc/mining.cpp:1238-1251`): an unknown previous header and any
non-valid processing state throw `RPC_VERIFY_ERROR`; a valid state returns
null. -/
def submitheaderResultOf (fsm : CValidationState → String) (prevKnown : Bool)
    (prevHashHex : String) (state : CValidationState) :
    Except JSONRPCError UniValue :=
  if !prevKnown then
    .error ⟨.VERIFY_ERROR, "Must submit previous header (" ++ prevHashHex ++ ") first"⟩
  else match state with
    | .valid => .ok .nullValue
    | .sysError m => .error ⟨.VERIFY_ERROR, fsm (.sysError m)⟩
    | .invalid reason => .error ⟨.VERIFY_ERROR, reason⟩

/-- C6: for a consensus rejection (an invalid state with a reject reason),
`submitblock` returns the reason as a JSON string and never throws a
`VerifyError` on any invalid state, while `submitheader` throws a
`VerifyError` carrying the reason. -/
theorem submit_rejection_paths (fsm : CValidationState → String)
    (prevHashHex : String) (reason : String) (hne : reason ≠ "") :
    (∀ nb : Bool,
        submitblockResultOf fsm false nb true (.invalid reason) = .ok (.str reason)) ∧
      (∀ (acc nb fnd : Bool) (m : String),
        submitblockResultOf fsm acc nb fnd (.invalid reason)
          ≠ .error ⟨.VERIFY_ERROR, m⟩) ∧
      submitheaderResultOf fsm true prevHashHex (.invalid reason)
        = .error ⟨.VERIFY_ERROR, reason⟩ := by
  refine ⟨?_, ?_, ?_⟩
  · intro nb
    unfold submitblockResultOf BIP22ValidationResult
    simp [hne]
  · intro acc nb fnd m
    unfold submitblockResultOf BIP22ValidationResult
    by_cases h1 : (!nb && acc) = true
    · simp [h1]
    · rw [Bool.not_eq_true] at h1
      rw [h1]
      by_cases h2 : fnd
      · simp [h2, hne]
      · simp [h2]
  · unfold submitheaderResultOf
    rfl

/-- Shared concrete `FormatStateMessage` stand-in for witnesses. -/
def sampleFSM : CValidationState → String := fun _ => "state"

/-- Witness for C6 at the reject reason `"bad-txnmrklroot"`. -/
theorem submit_rejection_paths_witness :
    ("bad-txnmrklroot" : String) ≠ "" ∧
      submitblockResultOf sampleFSM false true true (.invalid "bad-txnmrklroot")
        = .ok (.str "bad-txnmrklroot") ∧
      submitblockResultOf sampleFSM false true true (.invalid "bad-txnmrklroot")
        ≠ .error ⟨.VERIFY_ERROR, "bad-txnmrklroot"⟩ ∧
      submitheaderResultOf sampleFSM true "00" (.invalid "bad-txnmrklroot")
        = .error ⟨.VERIFY_ERROR, "bad-txnmrklroot"⟩ :=
  ⟨by decide,
    (submit_rejection_paths sampleFSM "00" "bad-txnmrklroot" (by decide)).1 true,
    (submit_rejection_paths sampleFSM "00" "bad-txnmrklroot" (by decide)).2.1
      false true true "bad-txnmrklroot",
    (submit_rejection_paths sampleFSM "00" "bad-txnmrklroot" (by decide)).2.2⟩

/-! ## `gethalvinginfo` epoch naming (`src/rpc/mining.cpp:377-457`, claim C7) -/

/-- The named-epochs list of `gethalvinginfo` (`src/rpc/mining.cpp:378`). -/
def knownEpochs : List String := ["COINSWAP", "BOOTSTRAP", "ALPHA"]

/-- The naming loop of `gethalvinginfo` (`src/rpc/mining.cpp:398-414`),
restricted to the state it reads for names: the per-epoch
`fIsSubsidyHalved` flags, the epoch position `i`, the running `nHalvings`
and `nEpochsAfterHalving`. A halved epoch bumps the halving counter and
resets the epoch counter; the first three positions take the known names
and reset the epoch counter for the first numbered epoch. -/
def epochNamesAux : List Bool → Nat → Nat → Nat → List String
  | [], _, _, _ => []
  | f :: rest, i, nHalvings, nEpochsAfterHalving =>
    let nHalvings1 := if f then nHalvings + 1 else nHalvings
    let nE1 := if f then 0 else nEpochsAfterHalving + 1
    if i < 3 then
      knownEpochs.getD i "" :: epochNamesAux rest (i + 1) nHalvings1 0
    else
      ("ALPHA_H" ++ toString nHalvings1 ++ "_E" ++ toString nE1)
        :: epochNamesAux rest (i + 1) nHalvings1 nE1

/-- The epoch names reported by `gethalvinginfo`, given the epochs'
`fIsSubsidyHalved` flags in order. -/
def epochNames (flags : List Bool) : List String :=
  epochNamesAux flags 0 0 0

/-- Spec-side `H`: the number of epochs with `started_by_halving = true`
among epochs `0..i`. -/
def specHalvingCount (flags : List Bool) (i : Nat) : Nat :=
  (flags.take (i + 1)).count true

/-- Spec-side `E`: the count of non-halved epochs since the last halving,
restarting from zero at each halving and at the end of the three named
epochs (positions `0..2` are skipped, a `true` flag resets the count). -/
def specEpochsAfterHalving (flags : List Bool) (i : Nat) : Nat :=
  ((flags.take (i + 1)).drop 3).foldl (fun e f => if f then 0 else e + 1) 0

/-- The `nEpochsAfterHalving` state entering position `i` of the loop. -/
def enterE (flags : List Bool) (i : Nat) : Nat :=
  ((flags.take i).drop 3).foldl (fun e f => if f then 0 else e + 1) 0

/-- One step of the halving-count prefix count. -/
theorem count_take_succ (flags : List Bool) (i : Nat) (hi : i < flags.length) :
    (flags.take (i + 1)).count true
      = (flags.take i).count true + (if flags[i] then 1 else 0) := by
  rw [List.take_succ, List.count_append, List.getElem?_eq_getElem hi, Option.toList_some]
  cases hf : flags[i] <;> simp [hf]

/-- One step of the epoch-counter state. -/
theorem enterE_succ (flags : List Bool) (i : Nat) (hi : i < flags.length) :
    enterE flags (i + 1) =
      if i < 3 then 0
      else if flags[i] then 0 else enterE flags i + 1 := by
  by_cases h3 : i < 3
  · rw [if_pos h3]
    unfold enterE
    have hnil : (flags.take (i + 1)).drop 3 = [] := by
      apply List.drop_eq_nil_of_le
      rw [List.length_take]
      omega
    rw [hnil]
    rfl
  · rw [if_neg h3]
    unfold enterE
    rw [List.take_succ, List.getElem?_eq_getElem hi, Option.toList_some,
      List.drop_append_of_le_length (by rw [List.length_take]; omega),
      List.foldl_append]
    cases hf : flags[i] <;> simp [hf]

/-- The loop suffix starting at position `i` runs from the state determined
by the prefix `0..i-1`. -/
theorem epochNames_drop (flags : List Bool) :
    ∀ i, i ≤ flags.length →
      (epochNames flags).drop i
        = epochNamesAux (flags.drop i) i ((flags.take i).count true) (enterE flags i) := by
  intro i
  induction i with
  | zero =>
    intro _
    simp [epochNames, enterE]
  | succ i ih =>
    intro hle
    have hi : i < flags.length := by omega
    have hd : flags.drop i = flags[i] :: flags.drop (i + 1) :=
      List.drop_eq_getElem_cons hi
    have hstep : (epochNames flags).drop (i + 1)
        = ((epochNames flags).drop i).drop 1 := by
      rw [List.drop_drop, Nat.add_comm]
    rw [hstep, ih (by omega), hd]
    simp only [epochNamesAux]
    rw [count_take_succ flags i hi, enterE_succ flags i hi]
    cases hf : flags[i] <;> by_cases h3 : i < 3 <;> simp [hf, h3]

/-- C7: position `i < 3` of the `gethalvinginfo` epoch array is named
`COINSWAP`/`BOOTSTRAP`/`ALPHA`, and every later position is named
`ALPHA_H{H}_E{E}` with `H` the number of halved epochs among `0..i` and
`E` the count of non-halved epochs since the last halving (reset at each
halving and at the end of the named epochs). -/
theorem gethalvinginfo_epochNames (flags : List Bool) (i : Nat) (hi : i < flags.length) :
    (i < 3 → (epochNames flags)[i]? = some (knownEpochs.getD i "")) ∧
      (3 ≤ i → (epochNames flags)[i]? =
        some ("ALPHA_H" ++ toString (specHalvingCount flags i) ++
          "_E" ++ toString (specEpochsAfterHalving flags i))) := by
  have hget : ((epochNames flags).drop i)[0]? = (epochNames flags)[i]? := by
    rw [List.getElem?_drop, Nat.add_zero]
  have hd : flags.drop i = flags[i] :: flags.drop (i + 1) :=
    List.drop_eq_getElem_cons hi
  rw [← hget, epochNames_drop flags i (le_of_lt hi), hd]
  constructor
  · intro h3
    simp only [epochNamesAux]
    rw [if_pos h3]
    exact List.getElem?_cons_zero
  · intro h3
    have h3' : ¬ i < 3 := by omega
    simp only [epochNamesAux]
    rw [if_neg h3']
    have hE : specEpochsAfterHalving flags i
        = if flags[i] then 0 else enterE flags i + 1 := by
      have he1 : specEpochsAfterHalving flags i = enterE flags (i + 1) := rfl
      rw [he1, enterE_succ flags i hi, if_neg h3']
    have hH : specHalvingCount flags i
        = if flags[i] then (flags.take i).count true + 1
          else (flags.take i).count true := by
      unfold specHalvingCount
      rw [count_take_succ flags i hi]
      cases hf : flags[i] <;> simp [hf]
    rw [hE, hH]
    exact List.getElem?_cons_zero

/-- Witness for C7 on the flags `[false, false, false, true, false]`:
epoch 1 is `BOOTSTRAP` and epoch 4 is `ALPHA_H1_E1`. -/
theorem gethalvinginfo_epochNames_witness :
    (1 : Nat) < ([false, false, false, true, false] : List Bool).length ∧
      (4 : Nat) < ([false, false, false, true, false] : List Bool).length ∧
      (epochNames [false, false, false, true, false])[1]? = some "BOOTSTRAP" ∧
      (epochNames [false, false, false, true, false])[4]? = some "ALPHA_H1_E1" := by
  refine ⟨by decide, by decide, ?_, ?_⟩
  · rw [(gethalvinginfo_epochNames [false, false, false, true, false] 1 (by decide)).1
      (by decide)]
    rfl
  · rw [(gethalvinginfo_epochNames [false, false, false, true, false] 4 (by decide)).2
      (by decide)]
    rfl

/-! ## Block generator (`src/rpc/mining.cpp:182-231`, claim C8) -/

/-- `nInnerLoopCount` (`src/rpc/mining.cpp:184`). -/
def nInnerLoopCount : Nat := 0x10000

/-- The inner scan loop of `generateBlocks` (`src/rpc/mining.cpp:207-211`):
while the budget is positive, the nonce is below the bound and the PoW
check fails, advance the nonce and decrement the budget. The structural
fuel is the remaining nonce range, so `fuel = 0` is exactly
`nNonce ≥ nInnerLoopCount`. -/
def scanNoncesGo (meets : Nat → Bool) : Nat → Nat → Nat → Nat × Nat
  | 0, nNonce, nMaxTries => (nNonce, nMaxTries)
  | fuel + 1, nNonce, nMaxTries =>
    if 0 < nMaxTries ∧ meets nNonce = false then
      scanNoncesGo meets fuel (nNonce + 1) (nMaxTries - 1)
    else (nNonce, nMaxTries)

/-- The inner scan loop from a given starting nonce and budget; `meets n`
models `CheckProofOfWork(GetPoWHash of the header at nonce n, nBits)`. -/
def scanNonces (meets : Nat → Bool) (nNonce nMaxTries : Nat) : Nat × Nat :=
  scanNoncesGo meets (nInnerLoopCount - nNonce) nNonce nMaxTries

/-- Characterization of the scan loop: the final nonce never exceeds the
bound, every decrement pairs with one nonce advance, every passed-over
nonce failed the check, and the loop stops only on budget exhaustion,
range exhaustion, or a hit. -/
theorem scanNoncesGo_characterize (meets : Nat → Bool) :
    ∀ (fuel nNonce T n' T' : Nat), fuel + nNonce = nInnerLoopCount →
      scanNoncesGo meets fuel nNonce T = (n', T') →
      nNonce ≤ n' ∧ n' ≤ nInnerLoopCount ∧ n' - nNonce ≤ T ∧
        T' = T - (n' - nNonce) ∧
        (∀ j, nNonce ≤ j → j < n' → meets j = false) ∧
        (T' = 0 ∨ n' = nInnerLoopCount ∨
          (meets n' = true ∧ n' < nInnerLoopCount ∧ T' ≠ 0)) := by
  intro fuel
  induction fuel with
  | zero =>
    intro nNonce T n' T' h heq
    rw [scanNoncesGo] at heq
    injection heq with e1 e2
    subst e1
    subst e2
    refine ⟨le_refl _, by omega, by omega, by omega, ?_, by omega⟩
    intro j h1 h2
    exact absurd h2 (by omega)
  | succ fuel ih =>
    intro nNonce T n' T' h heq
    rw [scanNoncesGo] at heq
    by_cases hc : 0 < T ∧ meets nNonce = false
    · rw [if_pos hc] at heq
      obtain ⟨i1, i2, i3, i4, i5, i6⟩ := ih (nNonce + 1) (T - 1) n' T' (by omega) heq
      refine ⟨by omega, i2, by omega, by omega, ?_, i6⟩
      intro j h1 h2
      rcases Nat.lt_or_ge j (nNonce + 1) with hj | hj
      · have hjn : j = nNonce := by omega
        rw [hjn]
        exact hc.2
      · exact i5 j hj h2
    · rw [if_neg hc] at heq
      injection heq with e1 e2
      subst e1
      subst e2
      refine ⟨le_refl _, by omega, by omega, by omega, ?_, ?_⟩
      · intro j h1 h2
        exact absurd h2 (by omega)
      · rcases Nat.eq_zero_or_pos T with hT | hT
        · left
          exact hT
        · right
          right
          have hm : meets nNonce = true := by
            rcases Bool.eq_false_or_eq_true (meets nNonce) with hf | hf
            · exact hf
            · exact absurd ⟨hT, hf⟩ hc
          exact ⟨hm, by omega, by omega⟩

/-- The characterization specialized to `scanNonces`. -/
theorem scanNonces_characterize (meets : Nat → Bool) (nNonce T : Nat)
    (hle : nNonce ≤ nInnerLoopCount) :
    nNonce ≤ (scanNonces meets nNonce T).1 ∧
      (scanNonces meets nNonce T).1 ≤ nInnerLoopCount ∧
      (scanNonces meets nNonce T).1 - nNonce ≤ T ∧
      (scanNonces meets nNonce T).2 = T - ((scanNonces meets nNonce T).1 - nNonce) ∧
      (∀ j, nNonce ≤ j → j < (scanNonces meets nNonce T).1 → meets j = false) ∧
      ((scanNonces meets nNonce T).2 = 0 ∨
        (scanNonces meets nNonce T).1 = nInnerLoopCount ∨
        (meets (scanNonces meets nNonce T).1 = true ∧
          (scanNonces meets nNonce T).1 < nInnerLoopCount ∧
          (scanNonces meets nNonce T).2 ≠ 0)) :=
  scanNoncesGo_characterize meets (nInnerLoopCount - nNonce) nNonce T
    (scanNonces meets nNonce T).1 (scanNonces meets nNonce T).2
    (by omega) Prod.mk.eta

/-- The external collaborators of one generator iteration `k`:
`meets k n` is the PoW check for nonce `n` of iteration `k`'s template
(fresh template and extra-nonce per iteration), `blockHash k` the found
block's hash, `accepted k` the `ProcessNewBlock` verdict, and `shutdown k`
the shutdown flag read at the head of the iteration. -/
structure GenEnv where
  meets : Nat → Nat → Bool
  blockHash : Nat → Nat
  accepted : Nat → Bool
  shutdown : Nat → Bool

/-- The generator loop of `generateBlocks` (`src/rpc/mining.cpp:195-229`):
assemble a template, scan nonces, stop returning the collected hashes when
the budget hits 0, reassemble on range exhaustion, and on a hit submit the
block (raising an internal error when rejected) and collect its hash. The
starting nonce 0 of each fresh template is modelled from the spec (§4.9
"Scan nonces 0..0x10000"), as `CreateNewBlock` lives outside the embedded
slice. -/
def generateBlocks (env : GenEnv) (k nHeight nHeightEnd nMaxTries : Nat)
    (acc : List Nat) : Except String (List Nat) :=
  if h1 : nHeight < nHeightEnd ∧ env.shutdown k = false then
    if h2 : (scanNonces (env.meets k) 0 nMaxTries).2 = 0 then .ok acc
    else if h3 : (scanNonces (env.meets k) 0 nMaxTries).1 = nInnerLoopCount then
      generateBlocks env (k + 1) nHeight nHeightEnd
        (scanNonces (env.meets k) 0 nMaxTries).2 acc
    else if env.accepted k then
      generateBlocks env (k + 1) (nHeight + 1) nHeightEnd
        (scanNonces (env.meets k) 0 nMaxTries).2 (acc ++ [env.blockHash k])
    else .error "ProcessNewBlock, block not accepted"
  else .ok acc
termination_by (nHeightEnd - nHeight, nMaxTries)
decreasing_by
  · have hc := scanNonces_characterize (env.meets k) 0 nMaxTries (by omega)
    have hb : nInnerLoopCount = 65536 := rfl
    apply Prod.Lex.right
    omega
  · apply Prod.Lex.left
    omega

/-- C8: in an active generator iteration, the scan visits nonces from 0,
decrements the budget once per advanced nonce, stops on a hit, range
exhaustion or budget exhaustion; a zero budget stops the generator with
the hashes found so far, and an exhausted range reassembles and
continues. -/
theorem generateBlocks_iteration (env : GenEnv) (k nHeight nHeightEnd T : Nat)
    (acc : List Nat) (hrun : nHeight < nHeightEnd) (hsd : env.shutdown k = false) :
    (scanNonces (env.meets k) 0 T).1 ≤ nInnerLoopCount ∧
      (scanNonces (env.meets k) 0 T).1 ≤ T ∧
      (scanNonces (env.meets k) 0 T).2 = T - (scanNonces (env.meets k) 0 T).1 ∧
      (∀ j, j < (scanNonces (env.meets k) 0 T).1 → env.meets k j = false) ∧
      ((scanNonces (env.meets k) 0 T).2 = 0 ∨
        (scanNonces (env.meets k) 0 T).1 = nInnerLoopCount ∨
        (env.meets k (scanNonces (env.meets k) 0 T).1 = true ∧
          (scanNonces (env.meets k) 0 T).1 < nInnerLoopCount ∧
          (scanNonces (env.meets k) 0 T).2 ≠ 0)) ∧
      ((scanNonces (env.meets k) 0 T).2 = 0 →
        generateBlocks env k nHeight nHeightEnd T acc = .ok acc) ∧
      ((scanNonces (env.meets k) 0 T).2 ≠ 0 →
        (scanNonces (env.meets k) 0 T).1 = nInnerLoopCount →
        generateBlocks env k nHeight nHeightEnd T acc
          = generateBlocks env (k + 1) nHeight nHeightEnd
              (scanNonces (env.meets k) 0 T).2 acc) := by
  obtain ⟨c1, c2, c3, c4, c5, c6⟩ :=
    scanNonces_characterize (env.meets k) 0 T (Nat.zero_le _)
  refine ⟨c2, by omega, by omega, fun j hj => c5 j (Nat.zero_le j) hj, c6, ?_, ?_⟩
  · intro h2
    rw [generateBlocks]
    rw [dif_pos ⟨hrun, hsd⟩, dif_pos h2]
  · intro h2 h3
    conv_lhs => rw [generateBlocks]
    rw [dif_pos ⟨hrun, hsd⟩, dif_neg h2, dif_pos h3]

/-- Concrete generator environment for the witness: nonce 5 meets the
target, blocks are accepted, no shutdown. -/
def sampleGenEnv : GenEnv :=
  { meets := fun _ n => n == 5
  , blockHash := fun k => 100 + k
  , accepted := fun _ => true
  , shutdown := fun _ => false }

/-- Witness for C8: with budget 3 the scan stops at nonce 3 with the
budget exhausted, and the generator returns the empty hash list. -/
theorem generateBlocks_iteration_witness :
    (0 : Nat) < 1 ∧ sampleGenEnv.shutdown 0 = false ∧
      (scanNonces (sampleGenEnv.meets 0) 0 3).2 = 0 ∧
      generateBlocks sampleGenEnv 0 0 1 3 [] = .ok [] :=
  ⟨Nat.zero_lt_one, rfl, by decide,
    (generateBlocks_iteration sampleGenEnv 0 0 1 3 [] Nat.zero_lt_one rfl).2.2.2.2.2.1
      (by decide)⟩

end Veles
